import Mathlib

/-!
# Nexus service worker: caching strategies

A shallow embedding of `service-worker.js`: the request classifier
(`isStaticAsset`, `isApiRequest`), the three caching strategies (`cacheFirst`,
`networkFirst`, `staleWhileRevalidate`), the background refresh (`updateCache`)
and the `activate`, `fetch` and `message` handlers.

Asynchronous code is modelled by explicit state passing.  A call receives the
cache storage and the network (what `fetch` settles to for each request) and
yields a `Run`: what the returned promise settles to, the cache storage once
every piece of work the call started has settled, and the list of requests
handed to `fetch`.  Cache storage operations are assumed not to fail.

A response body can be read once.  `cacheFirst` and `networkFirst` take their
clone before they return the response, and `updateCache` hands its response
to nobody else, so their writes always go through.  `staleWhileRevalidate`
takes its clone in the callback of `caches.open`, after the response has been
returned; whether the caller has read the body by then is an input of the
model (`bodyUsed`).
-/

namespace Nexus

/-! ## Constants -/

def CACHE_NAME : String := "nexus-games-v1"

def STATIC_CACHE : String := "nexus-static-v1"

def DYNAMIC_CACHE : String := "nexus-dynamic-v1"

def STATIC_ASSETS : List String :=
  ["/", "/index.html", "/manifest.json", "/images/icon-192.png", "/images/icon-512.png"]

/-- The text matched by each regular expression of `API_CACHE_PATTERNS`.  The
two expressions, `/\/api\//` and `/\/images\//`, carry no flag and no
metacharacter besides the escaped slashes, so each one matches exactly the
occurrences of a fixed text. -/
def API_CACHE_PATTERNS : List String := ["/api/", "/images/"]

/-! ## Requests and responses -/

/-- A parsed URL.  `origin` stands for everything in front of the path
(scheme, `://`, credentials, host and port); `search` and `hash` are empty or
start with `?` and `#`. -/
structure URL where
  origin : String
  pathname : String
  search : String
  hash : String
deriving DecidableEq, Repr

/-- The serialisation of a URL, which is what `pattern.test(url)` sees after
converting its argument to a string. -/
def URL.href (url : URL) : String :=
  url.origin ++ url.pathname ++ url.search ++ url.hash

/-- A request; it is its own cache key (the method is GET throughout). -/
structure Request where
  url : URL
deriving DecidableEq, Repr

structure Response where
  status : Nat
  body : String
deriving DecidableEq, Repr

/-- The `ok` getter of a response: the status lies in 200..299. -/
def Response.ok (r : Response) : Bool :=
  decide (200 ≤ r.status) && decide (r.status ≤ 299)

/-! ## Strings -/

/-- The method `String.prototype.endsWith`. -/
def endsWith (s ext : String) : Bool :=
  ext.data.isSuffixOf s.data

/-- Search for `needle` at every position of `hay`, leftmost first. -/
def includes : List Char → List Char → Bool
  | [], needle => needle.isEmpty
  | c :: cs, needle => needle.isPrefixOf (c :: cs) || includes cs needle

/-- The call `pattern.test(s)` for a flagless regular expression that matches
the fixed text `pattern`. -/
def regexTest (pattern s : String) : Bool :=
  includes s.data pattern.data

/-! ## Classifier -/

def staticExtensions : List String :=
  [".png", ".jpg", ".jpeg", ".gif", ".webp", ".svg", ".ico", ".woff", ".woff2"]

def isStaticAsset (url : URL) : Bool :=
  staticExtensions.any (fun ext => endsWith url.pathname ext)

def isApiRequest (url : URL) : Bool :=
  API_CACHE_PATTERNS.any (fun pattern => regexTest pattern url.href)

/-- The three functions the fetch handler can hand a request to. -/
inductive Strategy where
  | cacheFirst
  | networkFirst
  | staleWhileRevalidate
deriving DecidableEq, Repr

/-- The branch taken by the `if / else if / else` of the fetch handler. -/
def fetchStrategy (url : URL) : Strategy :=
  if isStaticAsset url then .cacheFirst
  else if isApiRequest url then .networkFirst
  else .staleWhileRevalidate

/-- A manifest entry resolved against the origin the worker is served from. -/
def manifestURL (origin path : String) : URL :=
  { origin := origin, pathname := path, search := "", hash := "" }

/-! ## Cache storage

The worker reaches the browser's cache storage only through `caches.match`,
`caches.open`, `caches.keys`, `caches.delete` and `cache.put`.  -/

/-- Modelled from the spec: a partition of the host-provided store, a keyed
collection of responses (section 4.2, "a named, independent key to Response
mapping"). -/
abbrev Cache := List (Request × Response)

/-- Modelled from the spec: the host-provided store, its named partitions in
the order they were created (section 4.2). -/
abbrev CacheStorage := List (String × Cache)

/-- Modelled from the spec: `get(partitionName, key)` of the host-provided
store: the entry stored under the key, if any. -/
def cacheMatch (cache : Cache) (request : Request) : Option Response :=
  (cache.find? (fun entry => entry.1 == request)).map (fun entry => entry.2)

/-- Modelled from the spec: `put(partitionName, key, response)` of the
host-provided store, which "overwrites existing entry for that key". -/
def cachePut (cache : Cache) (request : Request) (response : Response) : Cache :=
  cache.filter (fun entry => entry.1 != request) ++ [(request, response)]

/-- Modelled from the spec: `get("any", key)` of the host-provided store, the
call `caches.match(request)`: the partitions are searched in order and the
first match is returned. -/
def cachesMatch : CacheStorage → Request → Option Response
  | [], _ => none
  | (_, cache) :: rest, request =>
    match cacheMatch cache request with
    | some response => some response
    | none => cachesMatch rest request

/-- Modelled from the spec: `listPartitionNames()` of the host-provided store,
the call `caches.keys()`. -/
def cachesKeys (caches : CacheStorage) : List String :=
  caches.map (fun entry => entry.1)

/-- Modelled from the spec: `deletePartition(name)` of the host-provided
store, the call `caches.delete(name)`: "removes partition and all its entries;
no-op if absent". -/
def cachesDelete (caches : CacheStorage) (cacheName : String) : CacheStorage :=
  caches.filter (fun entry => entry.1 != cacheName)

/-- Modelled from the spec: `open(partitionName)` of the host-provided store,
the call `caches.open(name)`: "idempotent; creates partition if absent". -/
def cachesOpen (caches : CacheStorage) (cacheName : String) : CacheStorage :=
  if caches.any (fun entry => entry.1 == cacheName) then caches
  else caches ++ [(cacheName, [])]

/-- The partition with the given name, if present. -/
def cachesFind (caches : CacheStorage) (cacheName : String) : Option Cache :=
  (caches.find? (fun entry => entry.1 == cacheName)).map (fun entry => entry.2)

/-- The keys held by the partition with the given name (none when the
partition is absent). -/
def partitionKeys (caches : CacheStorage) (cacheName : String) : List Request :=
  match cachesFind caches cacheName with
  | some cache => cache.map (fun entry => entry.1)
  | none => []

/-- Apply `cache.put(request, response)` to the partition called `cacheName`. -/
def putNamed : CacheStorage → String → Request → Response → CacheStorage
  | [], _, _, _ => []
  | (name, cache) :: rest, cacheName, request, response =>
    if name = cacheName then (name, cachePut cache request response) :: rest
    else (name, cache) :: putNamed rest cacheName request response

/-- The pair of calls `caches.open(cacheName)` and then
`cache.put(request, response)` on the handle obtained. -/
def openAndPut (caches : CacheStorage) (cacheName : String) (request : Request)
    (response : Response) : CacheStorage :=
  putNamed (cachesOpen caches cacheName) cacheName request response

/-! ## Promises and the network -/

/-- What a promise settles to. -/
inductive Settled (α : Type) where
  | fulfilled (value : α)
  | rejected
deriving DecidableEq, Repr

/-- What `fetch(request)` settles to, for every request: fulfilled with a
response (of any status), or rejected. -/
abbrev Network := Request → Settled Response

/-- The observable result of one call.  `outcome` is what the returned promise
settles to, with `none` for the value `undefined`; `caches` is the cache
storage once all the work started by the call has settled; `fetched` lists the
requests passed to `fetch`. -/
structure Run where
  outcome : Settled (Option Response)
  caches : CacheStorage
  fetched : List Request
deriving DecidableEq, Repr

/-! ## Strategies -/

def updateCache (net : Network) (caches : CacheStorage) (request : Request) : Run :=
  match net request with
  | .fulfilled networkResponse =>
    if networkResponse.ok then
      { outcome := .fulfilled none,
        caches := openAndPut caches DYNAMIC_CACHE request networkResponse,
        fetched := [request] }
    else
      { outcome := .fulfilled none, caches := caches, fetched := [request] }
  | .rejected =>
    { outcome := .fulfilled none, caches := caches, fetched := [request] }

def cacheFirst (net : Network) (caches : CacheStorage) (request : Request) : Run :=
  match cachesMatch caches request with
  | some cachedResponse =>
    let background := updateCache net caches request
    { outcome := .fulfilled (some cachedResponse),
      caches := background.caches,
      fetched := background.fetched }
  | none =>
    match net request with
    | .fulfilled networkResponse =>
      if networkResponse.ok then
        { outcome := .fulfilled (some networkResponse),
          caches := openAndPut caches DYNAMIC_CACHE request networkResponse,
          fetched := [request] }
      else
        { outcome := .fulfilled (some networkResponse), caches := caches,
          fetched := [request] }
    | .rejected =>
      { outcome := .fulfilled (some { status := 404, body := "Image not available" }),
        caches := caches, fetched := [request] }

def networkFirst (net : Network) (caches : CacheStorage) (request : Request) : Run :=
  match net request with
  | .fulfilled networkResponse =>
    if networkResponse.ok then
      { outcome := .fulfilled (some networkResponse),
        caches := openAndPut caches DYNAMIC_CACHE request networkResponse,
        fetched := [request] }
    else
      { outcome := .fulfilled (some networkResponse), caches := caches,
        fetched := [request] }
  | .rejected =>
    match cachesMatch caches request with
    | some cachedResponse =>
      { outcome := .fulfilled (some cachedResponse), caches := caches,
        fetched := [request] }
    | none =>
      { outcome := .fulfilled (some { status := 503, body := "Offline" }),
        caches := caches, fetched := [request] }

/-- The promise `fetchPromise` of `staleWhileRevalidate`: what it settles to
and the cache storage after the work started by its `then` callback has
settled.  For an ok response the callback calls `caches.open(DYNAMIC_CACHE)`
and returns the response at once; `networkResponse.clone()` is evaluated later,
in the callback of `caches.open`.  `bodyUsed` tells whether the body of
`networkResponse` has been read by then: if so `clone()` throws in that
callback, `cache.put` is not reached and only the opening of the partition has
taken effect.  The `catch` callback turns a rejected fetch into the value of
`cachedResponse`. -/
def fetchPromise (net : Network) (bodyUsed : Bool) (caches : CacheStorage)
    (request : Request) (cachedResponse : Option Response) :
    Settled (Option Response) × CacheStorage :=
  match net request with
  | .fulfilled networkResponse =>
    if networkResponse.ok then
      (.fulfilled (some networkResponse),
        if bodyUsed then cachesOpen caches DYNAMIC_CACHE
        else openAndPut caches DYNAMIC_CACHE request networkResponse)
    else
      (.fulfilled (some networkResponse), caches)
  | .rejected => (.fulfilled cachedResponse, caches)

/-- The function `staleWhileRevalidate`.  `bodyUsed` tells whether the caller
reads the body of the response it is handed before the callback of
`caches.open` runs.  On a hit the caller is handed `cachedResponse`, so the
body of the network response is unread when the clone is taken; on a miss the
caller is handed the network response itself. -/
def staleWhileRevalidate (net : Network) (bodyUsed : Bool) (caches : CacheStorage)
    (request : Request) : Run :=
  let cachedResponse := cachesMatch caches request
  match cachedResponse with
  | some response =>
    let promise := fetchPromise net false caches request cachedResponse
    { outcome := .fulfilled (some response), caches := promise.2, fetched := [request] }
  | none =>
    let promise := fetchPromise net bodyUsed caches request cachedResponse
    { outcome := promise.1, caches := promise.2, fetched := [request] }

/-! ## Event handlers -/

/-- The call made in each branch of the fetch handler. -/
def Strategy.resolve : Strategy → Network → Bool → CacheStorage → Request → Run
  | .cacheFirst => fun net _ => Nexus.cacheFirst net
  | .networkFirst => fun net _ => Nexus.networkFirst net
  | .staleWhileRevalidate => Nexus.staleWhileRevalidate

/-- The fetch handler: the promise passed to `event.respondWith`.  `bodyUsed`
is passed on to `staleWhileRevalidate`. -/
def onFetch (net : Network) (bodyUsed : Bool) (caches : CacheStorage)
    (request : Request) : Run :=
  (fetchStrategy request.url).resolve net bodyUsed caches request

/-- The activate handler: every name listed by `caches.keys()` that is neither
`STATIC_CACHE` nor `DYNAMIC_CACHE` is passed to `caches.delete`. -/
def activate (caches : CacheStorage) : CacheStorage :=
  (cachesKeys caches).foldl
    (fun acc cacheName =>
      if cacheName ≠ STATIC_CACHE ∧ cacheName ≠ DYNAMIC_CACHE then cachesDelete acc cacheName
      else acc)
    caches

/-- Whether the activate handler keeps a partition of this name. -/
def kept (cacheName : String) : Bool :=
  cacheName == STATIC_CACHE || cacheName == DYNAMIC_CACHE

/-- The value of `event.data.action`: a string, or anything else (including
`undefined`). -/
inductive JSValue where
  | str (s : String)
  | other
deriving DecidableEq, Repr

/-- The payload `event.data` of a message: `null` or `undefined`, or a value
whose `action` property reads as given. -/
inductive MessageData where
  | nullish
  | withAction (action : JSValue)
deriving DecidableEq, Repr

/-- The effect of the message handler: the cache storage afterwards and the
number of calls to `self.skipWaiting()`. -/
structure MessageRun where
  caches : CacheStorage
  skipWaitingCalls : Nat
deriving DecidableEq, Repr

/-- The message handler.  Reading `action` from a `null` or `undefined`
payload throws. -/
def onMessage (data : MessageData) (caches : CacheStorage) : Except String MessageRun :=
  match data with
  | .nullish => .error "TypeError"
  | .withAction action =>
    let skipWaitingCalls := if action = .str "skipWaiting" then 1 else 0
    let caches := if action = .str "clearCache" then cachesDelete caches DYNAMIC_CACHE else caches
    .ok { caches := caches, skipWaitingCalls := skipWaitingCalls }

/-- Modelled from the spec: `get(partitionName, key)` of the host-provided
store, by partition name: the response stored under the request in the
partition called `cacheName`, if the partition exists and holds one. -/
def storedIn (caches : CacheStorage) (cacheName : String) (request : Request) :
    Option Response :=
  (cachesFind caches cacheName).bind (fun cache => cacheMatch cache request)

/-! ## Sample data -/

def sampleOrigin : String := "https://nexus.example"

/-- The manifest entry `/images/icon-192.png`, as requested by a page. -/
def iconRequest : Request := { url := manifestURL sampleOrigin "/images/icon-192.png" }

def apiRequest : Request := { url := manifestURL sampleOrigin "/api/scores" }

def pageRequest : Request := { url := manifestURL sampleOrigin "/index.html" }

def okResponse : Response := { status := 200, body := "[]" }

def serverError : Response := { status := 500, body := "Internal Server Error" }

def cachedIcon : Response := { status := 200, body := "icon" }

def cachedPage : Response := { status := 200, body := "<html>" }

/-- A network on which every fetch is rejected. -/
def offline : Network := fun _ => .rejected

/-- A network on which every fetch is answered with the given response. -/
def answering (response : Response) : Network := fun _ => .fulfilled response

/-! ## Classifier lemmas -/

theorem endsWith_iff (s ext : String) : endsWith s ext = true ↔ ext.data <:+ s.data := by
  unfold endsWith
  exact List.isSuffixOf_iff_suffix

theorem includes_iff (hay needle : List Char) :
    includes hay needle = true ↔ needle <:+: hay := by
  induction hay with
  | nil => simp [includes, List.isEmpty_iff]
  | cons c cs ih =>
    simp only [includes, Bool.or_eq_true, ih, List.infix_cons_iff, List.isPrefixOf_iff_prefix]

theorem isStaticAsset_iff (url : URL) :
    isStaticAsset url = true ↔
      ∃ ext ∈ [".png", ".jpg", ".jpeg", ".gif", ".webp", ".svg", ".ico", ".woff", ".woff2"],
        (ext : String).data <:+ url.pathname.data := by
  unfold isStaticAsset staticExtensions
  rw [List.any_eq_true]
  constructor
  · rintro ⟨ext, hmem, h⟩
    exact ⟨ext, hmem, (endsWith_iff _ _).1 h⟩
  · rintro ⟨ext, hmem, h⟩
    exact ⟨ext, hmem, (endsWith_iff _ _).2 h⟩

theorem isApiRequest_iff (url : URL) :
    isApiRequest url = true ↔
      "/api/".data <:+: url.href.data ∨ "/images/".data <:+: url.href.data := by
  simp only [isApiRequest, API_CACHE_PATTERNS, List.any_cons, List.any_nil, Bool.or_false,
    Bool.or_eq_true, regexTest, includes_iff]

/-! ## Classification claims -/

/-- The branch of the fetch handler, in terms of the pathname and the URL
string. -/
theorem fetchStrategy_iff (url : URL) :
    (fetchStrategy url = Strategy.cacheFirst ↔
      ∃ ext ∈ [".png", ".jpg", ".jpeg", ".gif", ".webp", ".svg", ".ico", ".woff", ".woff2"],
        (ext : String).data <:+ url.pathname.data) ∧
    (fetchStrategy url = Strategy.networkFirst ↔
      (¬ ∃ ext ∈ [".png", ".jpg", ".jpeg", ".gif", ".webp", ".svg", ".ico", ".woff", ".woff2"],
        (ext : String).data <:+ url.pathname.data) ∧
      ("/api/".data <:+: url.href.data ∨ "/images/".data <:+: url.href.data)) ∧
    (fetchStrategy url = Strategy.staleWhileRevalidate ↔
      (¬ ∃ ext ∈ [".png", ".jpg", ".jpeg", ".gif", ".webp", ".svg", ".ico", ".woff", ".woff2"],
        (ext : String).data <:+ url.pathname.data) ∧
      ¬ ("/api/".data <:+: url.href.data ∨ "/images/".data <:+: url.href.data)) := by
  have hs := isStaticAsset_iff url
  have ha := isApiRequest_iff url
  refine ⟨?_, ?_, ?_⟩
  · rw [← hs]
    unfold fetchStrategy
    cases isStaticAsset url <;> cases isApiRequest url <;> simp
  · rw [← hs, ← ha]
    unfold fetchStrategy
    cases isStaticAsset url <;> cases isApiRequest url <;> simp
  · rw [← hs, ← ha]
    unfold fetchStrategy
    cases isStaticAsset url <;> cases isApiRequest url <;> simp

/-- C1: the fetch handler hands every request to exactly one strategy.  It
takes the `cacheFirst` branch exactly when the pathname ends with one of the
nine static suffixes, and then responds with `cacheFirst(request)`; the
`networkFirst` branch exactly when it does not and the URL string contains
`/api/` or `/images/`, and then responds with `networkFirst(request)`; and the
`staleWhileRevalidate` branch in every other case, responding with
`staleWhileRevalidate(request)`.  A URL meeting both rules is answered by
`cacheFirst`. -/
theorem fetch_handler_strategy (net : Network) (bodyUsed : Bool) (caches : CacheStorage)
    (request : Request) :
    (fetchStrategy request.url = Strategy.cacheFirst ↔
      ∃ ext ∈ [".png", ".jpg", ".jpeg", ".gif", ".webp", ".svg", ".ico", ".woff", ".woff2"],
        (ext : String).data <:+ request.url.pathname.data) ∧
    (fetchStrategy request.url = Strategy.networkFirst ↔
      (¬ ∃ ext ∈ [".png", ".jpg", ".jpeg", ".gif", ".webp", ".svg", ".ico", ".woff", ".woff2"],
        (ext : String).data <:+ request.url.pathname.data) ∧
      ("/api/".data <:+: request.url.href.data ∨ "/images/".data <:+: request.url.href.data)) ∧
    (fetchStrategy request.url = Strategy.staleWhileRevalidate ↔
      (¬ ∃ ext ∈ [".png", ".jpg", ".jpeg", ".gif", ".webp", ".svg", ".ico", ".woff", ".woff2"],
        (ext : String).data <:+ request.url.pathname.data) ∧
      ¬ ("/api/".data <:+: request.url.href.data ∨ "/images/".data <:+: request.url.href.data)) ∧
    (fetchStrategy request.url = Strategy.cacheFirst →
      onFetch net bodyUsed caches request = cacheFirst net caches request) ∧
    (fetchStrategy request.url = Strategy.networkFirst →
      onFetch net bodyUsed caches request = networkFirst net caches request) ∧
    (fetchStrategy request.url = Strategy.staleWhileRevalidate →
      onFetch net bodyUsed caches request
        = staleWhileRevalidate net bodyUsed caches request) ∧
    (isStaticAsset request.url = true →
      onFetch net bodyUsed caches request = cacheFirst net caches request) ∧
    (isStaticAsset request.url = false → isApiRequest request.url = true →
      onFetch net bodyUsed caches request = networkFirst net caches request) ∧
    (isStaticAsset request.url = false → isApiRequest request.url = false →
      onFetch net bodyUsed caches request
        = staleWhileRevalidate net bodyUsed caches request) := by
  obtain ⟨h1, h2, h3⟩ := fetchStrategy_iff request.url
  refine ⟨h1, h2, h3, ?_, ?_, ?_, ?_, ?_, ?_⟩
  · intro h
    simp [onFetch, h, Strategy.resolve]
  · intro h
    simp [onFetch, h, Strategy.resolve]
  · intro h
    simp [onFetch, h, Strategy.resolve]
  · intro h
    simp [onFetch, fetchStrategy, h, Strategy.resolve]
  · intro hs ha
    simp [onFetch, fetchStrategy, hs, ha, Strategy.resolve]
  · intro hs ha
    simp [onFetch, fetchStrategy, hs, ha, Strategy.resolve]

/-- C10, as stated, fails: the manifest entry `/images/icon-192.png` has a
pathname ending in `.png` and a URL string containing `/images/`, so both
`isStaticAsset` and `isApiRequest` are true of it. -/
theorem icon_is_static_and_api :
    "/images/icon-192.png" ∈ STATIC_ASSETS ∧
    iconRequest.url = manifestURL "https://nexus.example" "/images/icon-192.png" ∧
    isStaticAsset iconRequest.url = true ∧ isApiRequest iconRequest.url = true := by
  decide

/-- C10, amended: the two rule sets overlap.  Both rules hold of a URL exactly
when its pathname ends with a static suffix and its URL string contains
`/api/` or `/images/`, and such a URL goes to `cacheFirst`.  Of the manifest
entries, `/`, `/index.html` and `/manifest.json` are not static assets on any
origin, while the two icons under `/images/` meet both rules on every
origin. -/
theorem classifier_overlap (origin : String) :
    (∀ url : URL, isStaticAsset url = true ∧ isApiRequest url = true ↔
      (∃ ext ∈ [".png", ".jpg", ".jpeg", ".gif", ".webp", ".svg", ".ico", ".woff", ".woff2"],
        (ext : String).data <:+ url.pathname.data) ∧
      ("/api/".data <:+: url.href.data ∨ "/images/".data <:+: url.href.data)) ∧
    (∀ url : URL, isStaticAsset url = true → isApiRequest url = true →
      fetchStrategy url = Strategy.cacheFirst) ∧
    (∀ path ∈ ["/", "/index.html", "/manifest.json"],
      path ∈ STATIC_ASSETS ∧ isStaticAsset (manifestURL origin path) = false) ∧
    (∀ path ∈ ["/images/icon-192.png", "/images/icon-512.png"],
      path ∈ STATIC_ASSETS ∧ isStaticAsset (manifestURL origin path) = true ∧
        isApiRequest (manifestURL origin path) = true) := by
  refine ⟨?_, ?_, ?_, ?_⟩
  · intro url
    rw [isStaticAsset_iff, isApiRequest_iff]
  · intro url h _
    simp [fetchStrategy, h]
  · intro path hpath
    simp only [List.mem_cons, List.mem_singleton, List.not_mem_nil, or_false] at hpath
    rcases hpath with rfl | rfl | rfl <;> exact ⟨by decide, rfl⟩
  · intro path hpath
    simp only [List.mem_cons, List.mem_singleton, List.not_mem_nil, or_false] at hpath
    have hcontains : ∀ rest : String,
        "/images/".data <:+: (manifestURL origin ("/images/" ++ rest)).href.data := by
      intro rest
      refine ⟨origin.data, rest.data, ?_⟩
      simp [manifestURL, URL.href, String.data_append]
    rcases hpath with rfl | rfl
    · exact ⟨by decide, rfl, (isApiRequest_iff _).2 (Or.inr (hcontains "icon-192.png"))⟩
    · exact ⟨by decide, rfl, (isApiRequest_iff _).2 (Or.inr (hcontains "icon-512.png"))⟩

/-! ## Cache storage lemmas -/

theorem cacheMatch_cachePut (cache : Cache) (request : Request) (response : Response) :
    cacheMatch (cachePut cache request response) request = some response := by
  have hnone : List.find? (fun entry : Request × Response => entry.1 == request)
      (cache.filter (fun entry => entry.1 != request)) = none := by
    rw [List.find?_eq_none]
    intro entry hentry
    have h := (List.mem_filter.1 hentry).2
    simpa using h
  simp [cacheMatch, cachePut, List.find?_append, hnone]

theorem cachesOpen_any (caches : CacheStorage) (cacheName : String) :
    (cachesOpen caches cacheName).any (fun entry => entry.1 == cacheName) = true := by
  unfold cachesOpen
  by_cases h : caches.any (fun entry => entry.1 == cacheName) = true
  · rw [if_pos h]
    exact h
  · rw [if_neg h]
    simp

theorem storedIn_putNamed (caches : CacheStorage) (cacheName : String) (request : Request)
    (response : Response)
    (h : caches.any (fun entry => entry.1 == cacheName) = true) :
    storedIn (putNamed caches cacheName request response) cacheName request = some response := by
  induction caches with
  | nil => simp at h
  | cons entry rest ih =>
    obtain ⟨name, cache⟩ := entry
    by_cases hname : name = cacheName
    · subst hname
      simp [putNamed, storedIn, cachesFind, cacheMatch_cachePut]
    · have hrest : rest.any (fun entry => entry.1 == cacheName) = true := by
        simpa [hname] using h
      have := ih hrest
      simpa [putNamed, storedIn, cachesFind, hname] using this

theorem storedIn_openAndPut (caches : CacheStorage) (cacheName : String) (request : Request)
    (response : Response) :
    storedIn (openAndPut caches cacheName request response) cacheName request
      = some response :=
  storedIn_putNamed _ _ _ _ (cachesOpen_any caches cacheName)

theorem cachesFind_cachesDelete_self (caches : CacheStorage) (cacheName : String) :
    cachesFind (cachesDelete caches cacheName) cacheName = none := by
  have hnone : List.find? (fun entry : String × Cache => entry.1 == cacheName)
      (caches.filter (fun entry => entry.1 != cacheName)) = none := by
    rw [List.find?_eq_none]
    intro entry hentry
    have h := (List.mem_filter.1 hentry).2
    simpa using h
  simp [cachesFind, cachesDelete, hnone]

theorem cachesFind_cachesDelete_other (caches : CacheStorage) (cacheName other : String)
    (h : other ≠ cacheName) :
    cachesFind (cachesDelete caches cacheName) other = cachesFind caches other := by
  induction caches with
  | nil => rfl
  | cons entry rest ih =>
    obtain ⟨name, cache⟩ := entry
    unfold cachesFind cachesDelete at ih ⊢
    by_cases hname : name = cacheName
    · subst hname
      have hne : ¬ name = other := fun e => h e.symm
      simpa [List.filter_cons, List.find?_cons, hne] using ih
    · by_cases hother : name = other
      · subst hother
        simp [List.filter_cons, List.find?_cons, hname]
      · simpa [List.filter_cons, List.find?_cons, hname, hother] using ih

theorem activate_foldl (names : List String) (acc : CacheStorage) :
    names.foldl
        (fun acc cacheName =>
          if cacheName ≠ STATIC_CACHE ∧ cacheName ≠ DYNAMIC_CACHE then
            cachesDelete acc cacheName
          else acc)
        acc
      = acc.filter (fun entry => kept entry.1 || decide (entry.1 ∉ names)) := by
  induction names generalizing acc with
  | nil => simp
  | cons name rest ih =>
    rw [List.foldl_cons, ih]
    by_cases hname : name ≠ STATIC_CACHE ∧ name ≠ DYNAMIC_CACHE
    · rw [if_pos hname]
      unfold cachesDelete
      rw [List.filter_filter]
      apply List.filter_congr
      intro entry _
      by_cases he : entry.1 = name
      · simp [kept, he, hname.1, hname.2]
      · simp [he]
    · rw [if_neg hname]
      apply List.filter_congr
      intro entry _
      by_cases he : entry.1 = name
      · have hk : kept entry.1 = true := by
          rw [he]
          by_cases h1 : name = STATIC_CACHE
          · simp [kept, h1]
          · have h2 : name = DYNAMIC_CACHE := by
              by_contra h2
              exact hname ⟨h1, h2⟩
            simp [kept, h2]
        simp [hk]
      · simp [he]

theorem activate_eq_filter (caches : CacheStorage) :
    activate caches = caches.filter (fun entry => kept entry.1) := by
  unfold activate
  rw [activate_foldl]
  apply List.filter_congr
  intro entry hentry
  have hmem : entry.1 ∈ cachesKeys caches := List.mem_map_of_mem _ hentry
  simp [hmem]

theorem cachesFind_filter_kept (caches : CacheStorage) (cacheName : String)
    (h : kept cacheName = true) :
    cachesFind (caches.filter (fun entry => kept entry.1)) cacheName
      = cachesFind caches cacheName := by
  unfold cachesFind
  rw [List.find?_filter]
  congr 1
  congr 1
  funext entry
  by_cases he : entry.1 = cacheName
  · simp [he, h]
  · simp [he]

/-! ## networkFirst -/

/-- C2, as stated, fails: a fetch answered with status 500 completes with a
response, `networkFirst` returns it, and nothing is written: the dynamic
partition holds no entry for the request. -/
theorem networkFirst_server_error_not_stored :
    answering serverError apiRequest = Settled.fulfilled serverError ∧
    (networkFirst (answering serverError) [] apiRequest).outcome
      = Settled.fulfilled (some serverError) ∧
    storedIn (networkFirst (answering serverError) [] apiRequest).caches DYNAMIC_CACHE
      apiRequest = none := by
  decide

/-- C2, amended: when the fetch completes with a response, `networkFirst`
returns exactly that response; if the response is ok (status 200..299) the
dynamic partition afterwards holds it under the request key, and if it is not
ok the cache storage is left as it was. -/
theorem networkFirst_fetch_fulfilled (net : Network) (caches : CacheStorage)
    (request : Request) (networkResponse : Response)
    (hfetch : net request = Settled.fulfilled networkResponse) :
    (networkFirst net caches request).outcome = Settled.fulfilled (some networkResponse) ∧
    (networkFirst net caches request).fetched = [request] ∧
    (networkResponse.ok = true →
      storedIn (networkFirst net caches request).caches DYNAMIC_CACHE request
        = some networkResponse) ∧
    (networkResponse.ok = false → (networkFirst net caches request).caches = caches) := by
  unfold networkFirst
  rw [hfetch]
  by_cases hok : networkResponse.ok = true
  · simp [hok, storedIn_openAndPut]
  · simp [hok]

/-- Witness for C2: a fetch answered with status 200 on an empty cache storage
is returned and stored in the dynamic partition. -/
theorem networkFirst_fetch_fulfilled_witness :
    (networkFirst (answering okResponse) [] apiRequest).outcome
      = Settled.fulfilled (some okResponse) ∧
    storedIn (networkFirst (answering okResponse) [] apiRequest).caches DYNAMIC_CACHE
      apiRequest = some okResponse :=
  have h := networkFirst_fetch_fulfilled (answering okResponse) [] apiRequest okResponse rfl
  ⟨h.1, h.2.2.1 (by decide)⟩

/-- C3: when the fetch fails, `networkFirst` returns the entry found by
`caches.match` if there is one and a response with status 503 and body
"Offline" otherwise; in both cases its promise is fulfilled, not rejected. -/
theorem networkFirst_fetch_rejected (net : Network) (caches : CacheStorage)
    (request : Request) (hfetch : net request = Settled.rejected) :
    (∀ cachedResponse, cachesMatch caches request = some cachedResponse →
      (networkFirst net caches request).outcome = Settled.fulfilled (some cachedResponse)) ∧
    (cachesMatch caches request = none →
      (networkFirst net caches request).outcome
        = Settled.fulfilled (some { status := 503, body := "Offline" })) ∧
    (networkFirst net caches request).outcome ≠ Settled.rejected := by
  unfold networkFirst
  rw [hfetch]
  cases hmatch : cachesMatch caches request with
  | none => simp
  | some cachedResponse => simp

/-- Witness for C3: offline, a request cached in the dynamic partition is
answered from it, and on an empty cache storage the answer is 503 "Offline". -/
theorem networkFirst_fetch_rejected_witness :
    (networkFirst offline [(DYNAMIC_CACHE, [(apiRequest, okResponse)])] apiRequest).outcome
      = Settled.fulfilled (some okResponse) ∧
    (networkFirst offline [] apiRequest).outcome
      = Settled.fulfilled (some { status := 503, body := "Offline" }) :=
  ⟨(networkFirst_fetch_rejected offline [(DYNAMIC_CACHE, [(apiRequest, okResponse)])]
      apiRequest rfl).1 okResponse (by decide),
    (networkFirst_fetch_rejected offline [] apiRequest rfl).2.1 (by decide)⟩

/-! ## cacheFirst -/

/-- C4: when `caches.match` finds an entry, `cacheFirst` returns that entry
whatever the network does, exactly one fetch is issued, by `updateCache` and
for the same request, and `updateCache` itself always fulfils, so a failed
background fetch surfaces nowhere. -/
theorem cacheFirst_cached (net : Network) (caches : CacheStorage) (request : Request)
    (cachedResponse : Response) (hmatch : cachesMatch caches request = some cachedResponse) :
    (cacheFirst net caches request).outcome = Settled.fulfilled (some cachedResponse) ∧
    (cacheFirst net caches request).fetched = [request] ∧
    (cacheFirst net caches request).fetched = (updateCache net caches request).fetched ∧
    (cacheFirst net caches request).caches = (updateCache net caches request).caches ∧
    (updateCache net caches request).outcome = Settled.fulfilled none ∧
    (net request = Settled.rejected → (cacheFirst net caches request).caches = caches) := by
  have hfetched : (updateCache net caches request).fetched = [request] := by
    unfold updateCache
    cases net request with
    | fulfilled networkResponse =>
      by_cases hok : networkResponse.ok = true <;> simp [hok]
    | rejected => rfl
  have houtcome : (updateCache net caches request).outcome = Settled.fulfilled none := by
    unfold updateCache
    cases net request with
    | fulfilled networkResponse =>
      by_cases hok : networkResponse.ok = true <;> simp [hok]
    | rejected => rfl
  have hrejected : net request = Settled.rejected →
      (updateCache net caches request).caches = caches := by
    intro h
    unfold updateCache
    rw [h]
  unfold cacheFirst
  rw [hmatch]
  exact ⟨rfl, hfetched, rfl, rfl, houtcome, hrejected⟩

/-- Witness for C4: offline, the icon cached in the static partition is
returned and one fetch is issued for it. -/
theorem cacheFirst_cached_witness :
    (cacheFirst offline [(STATIC_CACHE, [(iconRequest, cachedIcon)])] iconRequest).outcome
      = Settled.fulfilled (some cachedIcon) ∧
    (cacheFirst offline [(STATIC_CACHE, [(iconRequest, cachedIcon)])] iconRequest).fetched
      = [iconRequest] :=
  have h := cacheFirst_cached offline [(STATIC_CACHE, [(iconRequest, cachedIcon)])]
    iconRequest cachedIcon (by decide)
  ⟨h.1, h.2.1⟩

/-- C5: when `caches.match` finds nothing and the fetch fails, `cacheFirst`
returns a response with status 404 and body "Image not available" and the
cache storage is left as it was. -/
theorem cacheFirst_miss_fetch_rejected (net : Network) (caches : CacheStorage)
    (request : Request) (hmatch : cachesMatch caches request = none)
    (hfetch : net request = Settled.rejected) :
    (cacheFirst net caches request).outcome
      = Settled.fulfilled (some { status := 404, body := "Image not available" }) ∧
    (cacheFirst net caches request).caches = caches := by
  unfold cacheFirst
  rw [hmatch, hfetch]
  exact ⟨rfl, rfl⟩

/-- Witness for C5: offline, an icon that is not cached is answered with 404
"Image not available" and the cache storage is left as it was. -/
theorem cacheFirst_miss_fetch_rejected_witness :
    (cacheFirst offline [(STATIC_CACHE, [(pageRequest, cachedPage)])] iconRequest).outcome
      = Settled.fulfilled (some { status := 404, body := "Image not available" }) ∧
    (cacheFirst offline [(STATIC_CACHE, [(pageRequest, cachedPage)])] iconRequest).caches
      = [(STATIC_CACHE, [(pageRequest, cachedPage)])] :=
  cacheFirst_miss_fetch_rejected offline [(STATIC_CACHE, [(pageRequest, cachedPage)])]
    iconRequest (by decide) rfl

/-! ## staleWhileRevalidate -/

/-- C6, as stated, fails: a fetch answered with status 500 completes with a
response and `staleWhileRevalidate` returns it, but it is not written: the
dynamic partition holds no entry for the request. -/
theorem staleWhileRevalidate_server_error_not_stored :
    answering serverError pageRequest = Settled.fulfilled serverError ∧
    (staleWhileRevalidate (answering serverError) false [] pageRequest).outcome
      = Settled.fulfilled (some serverError) ∧
    storedIn (staleWhileRevalidate (answering serverError) false [] pageRequest).caches
      DYNAMIC_CACHE pageRequest = none := by
  decide

/-- C6, amended: `staleWhileRevalidate` always starts one fetch, for the
request; it returns the cached entry whenever `caches.match` finds one,
whatever the fetch does, and the fetched response when nothing is cached and
the fetch completes.  When an entry was found, a fetched response that is ok
(status 200..299) is written to the dynamic partition under the request key.
A fetched response that is not ok is never written: the cache storage is left
as it was.  Neither changes the value returned. -/
theorem staleWhileRevalidate_returns (net : Network) (bodyUsed : Bool)
    (caches : CacheStorage) (request : Request) :
    (staleWhileRevalidate net bodyUsed caches request).fetched = [request] ∧
    (∀ cachedResponse, cachesMatch caches request = some cachedResponse →
      (staleWhileRevalidate net bodyUsed caches request).outcome
        = Settled.fulfilled (some cachedResponse)) ∧
    (∀ networkResponse, cachesMatch caches request = none →
      net request = Settled.fulfilled networkResponse →
      (staleWhileRevalidate net bodyUsed caches request).outcome
        = Settled.fulfilled (some networkResponse)) ∧
    (∀ cachedResponse networkResponse, cachesMatch caches request = some cachedResponse →
      net request = Settled.fulfilled networkResponse → networkResponse.ok = true →
      storedIn (staleWhileRevalidate net bodyUsed caches request).caches DYNAMIC_CACHE
        request = some networkResponse) ∧
    (∀ networkResponse, net request = Settled.fulfilled networkResponse →
      networkResponse.ok = false →
      (staleWhileRevalidate net bodyUsed caches request).caches = caches) := by
  refine ⟨?_, ?_, ?_, ?_, ?_⟩
  · unfold staleWhileRevalidate
    cases cachesMatch caches request <;> rfl
  · intro cachedResponse hmatch
    unfold staleWhileRevalidate
    rw [hmatch]
  · intro networkResponse hmatch hfetch
    unfold staleWhileRevalidate fetchPromise
    rw [hmatch, hfetch]
    by_cases hok : networkResponse.ok = true <;> simp [hok]
  · intro cachedResponse networkResponse hmatch hfetch hok
    unfold staleWhileRevalidate fetchPromise
    rw [hmatch, hfetch]
    simp [hok, storedIn_openAndPut]
  · intro networkResponse hfetch hok
    unfold staleWhileRevalidate fetchPromise
    rw [hfetch]
    cases cachesMatch caches request <;> simp [hok]

/-- On a miss, an ok response whose body the caller has read by the time the
callback of `caches.open` runs is not written: the dynamic partition has been
opened and nothing else has changed. -/
theorem staleWhileRevalidate_miss_body_used (net : Network) (caches : CacheStorage)
    (request : Request) (networkResponse : Response)
    (hmatch : cachesMatch caches request = none)
    (hfetch : net request = Settled.fulfilled networkResponse)
    (hok : networkResponse.ok = true) :
    (staleWhileRevalidate net true caches request).caches
      = cachesOpen caches DYNAMIC_CACHE := by
  unfold staleWhileRevalidate fetchPromise
  rw [hmatch, hfetch]
  simp [hok]

/-- C7, the code at the failing input: with nothing cached and the fetch
rejected, the `catch` callback of `fetchPromise` yields `cachedResponse`, which
is `undefined`, so the promise of `staleWhileRevalidate` is fulfilled with
`undefined`: neither a failure nor a response.  In the same situation
`cacheFirst` and `networkFirst` answer with a response of their own making. -/
theorem staleWhileRevalidate_miss_offline_undefined :
    cachesMatch [] pageRequest = none ∧
    offline pageRequest = Settled.rejected ∧
    (staleWhileRevalidate offline false [] pageRequest).outcome = Settled.fulfilled none ∧
    (staleWhileRevalidate offline true [] pageRequest).outcome = Settled.fulfilled none ∧
    (cacheFirst offline [] pageRequest).outcome
      = Settled.fulfilled (some { status := 404, body := "Image not available" }) ∧
    (networkFirst offline [] pageRequest).outcome
      = Settled.fulfilled (some { status := 503, body := "Offline" }) := by
  decide

/-! ## The activate handler -/

/-- C8, as stated, fails: starting from the old partition `CACHE_NAME` and the
static partition, two runs of the activate handler leave the static partition alone;
the dynamic partition is not present. -/
theorem activate_twice_dynamic_absent :
    activate (activate [(CACHE_NAME, []), (STATIC_CACHE, [(pageRequest, cachedPage)])])
      = [(STATIC_CACHE, [(pageRequest, cachedPage)])] ∧
    DYNAMIC_CACHE ∉ cachesKeys
      (activate (activate [(CACHE_NAME, []), (STATIC_CACHE, [(pageRequest, cachedPage)])])) := by
  decide

/-- C8, amended: after two runs of the activate handler no partition other
than the static and the dynamic one is present; each of these two is present
exactly when it was present at the start, with the entries it had; and the
second run changes nothing the first run left. -/
theorem activate_twice (caches : CacheStorage) :
    (∀ name ∈ cachesKeys (activate (activate caches)),
      name = STATIC_CACHE ∨ name = DYNAMIC_CACHE) ∧
    cachesFind (activate (activate caches)) STATIC_CACHE = cachesFind caches STATIC_CACHE ∧
    cachesFind (activate (activate caches)) DYNAMIC_CACHE = cachesFind caches DYNAMIC_CACHE ∧
    activate (activate caches) = activate caches := by
  have hidem : activate (activate caches) = activate caches := by
    rw [activate_eq_filter (activate caches), activate_eq_filter caches, List.filter_filter]
    simp
  rw [hidem, activate_eq_filter]
  refine ⟨?_, ?_, ?_, rfl⟩
  · intro name hname
    unfold cachesKeys at hname
    obtain ⟨entry, hentry, rfl⟩ := List.mem_map.1 hname
    have hkept := (List.mem_filter.1 hentry).2
    simpa [kept] using hkept
  · exact cachesFind_filter_kept caches STATIC_CACHE (by decide)
  · exact cachesFind_filter_kept caches DYNAMIC_CACHE (by decide)

/-! ## The message handler -/

/-- C9: for a payload with an `action`, the message handler raises no error;
`clearCache` deletes the dynamic partition, which then holds no key, and every
other partition, the static one in particular, keeps its entries; `skipWaiting`
and every action other than `clearCache` leave the cache storage unchanged. -/
theorem message_handler_effect (caches : CacheStorage) (action : JSValue) :
    (onMessage (MessageData.withAction (JSValue.str "clearCache")) caches
        = Except.ok { caches := cachesDelete caches DYNAMIC_CACHE, skipWaitingCalls := 0 } ∧
      partitionKeys (cachesDelete caches DYNAMIC_CACHE) DYNAMIC_CACHE = [] ∧
      cachesFind (cachesDelete caches DYNAMIC_CACHE) STATIC_CACHE
        = cachesFind caches STATIC_CACHE ∧
      ∀ name, name ≠ DYNAMIC_CACHE →
        cachesFind (cachesDelete caches DYNAMIC_CACHE) name = cachesFind caches name) ∧
    onMessage (MessageData.withAction (JSValue.str "skipWaiting")) caches
      = Except.ok { caches := caches, skipWaitingCalls := 1 } ∧
    (action ≠ JSValue.str "clearCache" →
      ∃ calls, onMessage (MessageData.withAction action) caches
        = Except.ok { caches := caches, skipWaitingCalls := calls }) := by
  refine ⟨⟨?_, ?_, ?_, ?_⟩, ?_, ?_⟩
  · simp [onMessage]
  · unfold partitionKeys
    rw [cachesFind_cachesDelete_self]
  · exact cachesFind_cachesDelete_other caches DYNAMIC_CACHE STATIC_CACHE (by decide)
  · intro name hname
    exact cachesFind_cachesDelete_other caches DYNAMIC_CACHE name hname
  · simp [onMessage]
  · intro haction
    simp [onMessage, haction]

end Nexus
